import Mathlib

/-!
Verification development for the Cake Catcher session core
(`src/game/game_manager.py`, `src/game/item.py`, `src/game/combo_effect.py`,
`src/game/utils.py`).

The Python code is shallowly embedded: machine floats become `ℚ`, Python
ints become `ℤ`, `pygame.time.get_ticks()` readings are passed in as
explicit millisecond inputs, and every `random.*` draw is passed in as an
explicit oracle value (with range hypotheses mirroring the distribution
bounds where a property depends on them).  Rendering, audio, score popups
and the confetti particle system are presentation-only and are omitted,
except that the combo "special visual" trigger (the
`confetti_system.celebration_burst` call guarded by
`ComboEffect.should_trigger_special` in `GameManager.handle_catch`) is
recorded in a counter so that properties about it are statable.
-/

namespace CakeCatcher

/-! ### Constants from `src/game/utils.py` (module-level defaults) -/

def SCREEN_WIDTH : ℤ := 1920

def SCREEN_HEIGHT : ℚ := 1080

def SCALE_FACTOR : ℚ := 1

def GAME_DURATION : ℚ := 60

inductive ItemType where
  | GOOD
  | BAD
  | SPECIAL
deriving DecidableEq, Repr

/-- `SCORES` dict from `utils.py`. -/
def SCORES : ItemType → ℤ
  | .GOOD => 10
  | .BAD => -15
  | .SPECIAL => 50

/-- `SPAWN_RATES[ITEM_GOOD]` from `utils.py`. -/
def SPAWN_RATE_GOOD : ℚ := 0.7

/-- `lerp` from `utils.py`. -/
def lerp (start finish factor : ℚ) : ℚ := start + (finish - start) * factor

/-- Python `int(q)` on a float: truncation toward zero. -/
def pyTrunc (q : ℚ) : ℤ := if 0 ≤ q then ⌊q⌋ else ⌈q⌉

/-- Python `x % m` on floats for `m > 0`: the result has the sign of the
divisor, i.e. `x - m * ⌊x / m⌋`. -/
def pymod (x m : ℚ) : ℚ := x - m * ⌊x / m⌋

/-! ### `pygame.Rect` and its collision test -/

structure Rect where
  x : ℤ
  y : ℤ
  w : ℤ
  h : ℤ
deriving DecidableEq, Repr

/-- `pygame.Rect.colliderect`: overlap test, touching edges do not collide
(and zero-extent rectangles collide with nothing). -/
def Rect.colliderect (a b : Rect) : Bool :=
  decide (a.x < b.x + b.w) && decide (b.x < a.x + a.w) &&
  decide (a.y < b.y + b.h) && decide (b.y < a.y + a.h)

/-! ### `Item` (`src/game/item.py`) -/

structure Item where
  type : ItemType
  speed : ℚ
  score_value : ℤ
  rotation : ℚ
  angular_velocity : ℚ
  rotation_friction : ℚ
  width : ℤ
  height : ℤ
  x : ℤ
  y : ℚ
  caught : Bool
deriving DecidableEq, Repr

/-- The random draws (and asset-dependent sprite extents) consumed by
`Item.__init__`.  `baseFallSpeed` is `random.uniform(3, 6)`,
`initRotation` is `random.uniform(-10, 10)`, `angularVelocity` and
`rotationFriction` are drawn from the per-type ranges, `isBalloon`
records whether the randomly chosen GOOD sprite is a balloon (in which
case the angular velocity is damped and the rotation redrawn from
`random.uniform(-5, 5)` as `balloonRotation`), `width`/`height` are the
scaled sprite extents and `x` is `random.randint(width, SCREEN_WIDTH - width)`. -/
structure ItemRand where
  baseFallSpeed : ℚ
  initRotation : ℚ
  angularVelocity : ℚ
  rotationFriction : ℚ
  isBalloon : Bool
  balloonRotation : ℚ
  width : ℤ
  height : ℤ
  x : ℤ
deriving DecidableEq, Repr

/-- `Item.__init__(item_type, speed_multiplier)`:
`base_speed = uniform(3,6) * SCALE_FACTOR`, `speed = base_speed * speed_multiplier`,
per-type angular velocity and friction (SPECIAL friction is the fixed
`0.995`), balloon sprites damp the angular velocity by `0.3` and redraw
the initial rotation, spawn at `y = -height`, not caught. -/
def mkItem (t : ItemType) (speed_multiplier : ℚ) (r : ItemRand) : Item :=
  let friction := if t = .SPECIAL then (0.995 : ℚ) else r.rotationFriction
  let av := if t = .GOOD ∧ r.isBalloon then r.angularVelocity * 0.3 else r.angularVelocity
  let rot := if t = .GOOD ∧ r.isBalloon then r.balloonRotation else r.initRotation
  { type := t
    speed := r.baseFallSpeed * SCALE_FACTOR * speed_multiplier
    score_value := SCORES t
    rotation := rot
    angular_velocity := av
    rotation_friction := friction
    width := r.width
    height := r.height
    x := r.x
    y := -(r.height : ℚ)
    caught := false }

/-- The ranges the `Item.__init__` random draws are taken from
(`random.uniform` bounds, per item type). -/
def ItemRandValid (t : ItemType) (r : ItemRand) : Prop :=
  3 ≤ r.baseFallSpeed ∧ r.baseFallSpeed ≤ 6 ∧
  (t = .GOOD → 0.985 ≤ r.rotationFriction ∧ r.rotationFriction ≤ 0.995) ∧
  (t = .BAD → 0.970 ≤ r.rotationFriction ∧ r.rotationFriction ≤ 0.985)

/-- `Item.update(dt)`: `y += speed` (not scaled by `dt`),
`rotation += angular_velocity * dt`, `angular_velocity *= rotation_friction`,
`rotation %= 360`.  The `rect` sync is reflected through `Item.get_rect`. -/
def Item.update (it : Item) (dt : ℚ) : Item :=
  { it with
    y := it.y + it.speed
    rotation := pymod (it.rotation + it.angular_velocity * dt) 360
    angular_velocity := it.angular_velocity * it.rotation_friction }

/-- `Item.is_off_screen()`: `self.y > SCREEN_HEIGHT`. -/
def Item.is_off_screen (it : Item) : Bool :=
  decide (SCREEN_HEIGHT < it.y)

/-- `Item.get_rect()`: the rect kept in sync from `int(x)`, `int(y)`. -/
def Item.get_rect (it : Item) : Rect :=
  { x := it.x, y := pyTrunc it.y, w := it.width, h := it.height }

def Item.is_good (it : Item) : Bool := it.type = .GOOD

def Item.is_bad (it : Item) : Bool := it.type = .BAD

def Item.is_special (it : Item) : Bool := it.type = .SPECIAL

/-! ### `GameManager.get_difficulty_params` (`game_manager.py` lines 71-106)

The four stages are `(0, 1.3, 2.0)`, `(10, 1.5, 1.7)`, `(30, 1.8, 1.4)`,
`(45, 2.1, 1.1)`.  The Python `for i in range(len(stages) - 1)` loop is
unrolled below: it tries `i = 0, 1, 2` in order, takes the first `i` with
`elapsed ≥ stages[i][0]` and (`i = 2` or `elapsed < stages[i+1][0]`), and
on a match sets `current = stages[i]`, `next = stages[i+1]`; when no `i`
matches (only possible for `elapsed < 0`) the pre-loop defaults
`current = stages[0]`, `next = stages[1]` remain. -/

abbrev Stage : Type := ℚ × ℚ × ℚ

def stage0 : Stage := (0, 1.3, 2.0)

def stage1 : Stage := (10, 1.5, 1.7)

def stage2 : Stage := (30, 1.8, 1.4)

def stage3 : Stage := (45, 2.1, 1.1)

def findStages (elapsed : ℚ) : Stage × Stage :=
  if 0 ≤ elapsed ∧ elapsed < 10 then (stage0, stage1)
  else if 10 ≤ elapsed ∧ elapsed < 30 then (stage1, stage2)
  else if 30 ≤ elapsed then (stage2, stage3)
  else (stage0, stage1)

def get_difficulty_params (elapsed : ℚ) : ℚ × ℚ :=
  let cn := findStages elapsed
  let current_stage := cn.1
  let next_stage := cn.2
  if current_stage = next_stage then (current_stage.2.1, current_stage.2.2)
  else
    let time_range := next_stage.1 - current_stage.1
    let time_into_range := elapsed - current_stage.1
    let factor := if 0 < time_range then min 1 (time_into_range / time_range) else 0
    (lerp current_stage.2.1 next_stage.2.1 factor,
     lerp current_stage.2.2 next_stage.2.2 factor)

/-! ### `ComboEffect` (`src/game/combo_effect.py`), gameplay-relevant part

Only the fields that feed back into `GameManager` decisions are kept:
`combo`, `lifetime` and `trigger_special` (set in `__init__` iff
`combo_count >= 10`).  `max_lifetime` is the constant `1.2`. -/

structure ComboEffectState where
  combo : ℤ
  lifetime : ℚ
  trigger_special : Bool
deriving DecidableEq, Repr

/-- `ComboEffect.should_trigger_special()`:
`self.trigger_special and self.lifetime < 0.1`. -/
def ComboEffectState.should_trigger_special (e : ComboEffectState) : Bool :=
  e.trigger_special && decide (e.lifetime < 0.1)

/-- `ComboEffect.__init__(x, y, combo_count, font, scale_factor)`, the
gameplay-relevant state: lifetime starts at 0 and `trigger_special` is
set exactly when `combo_count >= 10`. -/
def mkComboEffect (combo_count : ℤ) : ComboEffectState :=
  { combo := combo_count, lifetime := 0, trigger_special := decide (10 ≤ combo_count) }

/-! ### `GameManager` state (`src/game/game_manager.py`)

Times (`start_time`, `last_frame_time`) are in pygame milliseconds, as
returned by `pygame.time.get_ticks()`.  `combo_celebrations` is a ghost
counter recording each `confetti_system.celebration_burst` call made from
the combo path of `handle_catch` (the "special visual" trigger); fonts,
popups, sounds and the confetti particles themselves are presentation
state and are omitted. -/

structure GMState where
  score : ℤ
  items : List Item
  start_time : ℚ
  last_frame_time : ℚ
  spawn_timer : ℤ
  speed_multiplier : ℚ
  game_over : Bool
  next_special_spawn_time : ℚ
  special_spawned_this_interval : Bool
  special_missed : Bool
  special_items_spawned : ℤ
  combo_count : ℤ
  combo_timer : ℚ
  combo_effect : Option ComboEffectState
  combo_celebrations : ℤ
deriving DecidableEq, Repr

/-- `self.combo_max_time = 4.0`. -/
def combo_max_time : ℚ := 4

/-- `GameManager.get_elapsed_time()` at a given tick reading:
`(current_time - start_time) / 1000`. -/
def GMState.elapsed_at (s : GMState) (current_time : ℚ) : ℚ :=
  (current_time - s.start_time) / 1000

/-- `GameManager.get_remaining_time()`: `max(0, GAME_DURATION - elapsed)`. -/
def GMState.remaining_at (s : GMState) (current_time : ℚ) : ℚ :=
  max 0 (GAME_DURATION - s.elapsed_at current_time)

/-- The random draws consumed by one `GameManager.update` tick:
`specialDelay` is the `random.uniform(20, 30)` rollover draw, `typeRoll`
is the `random.random()` draw of `spawn_item`, and the two `ItemRand`
bundles feed the (at most two) `Item` constructions of the tick. -/
structure TickRand where
  specialDelay : ℚ
  typeRoll : ℚ
  specialItem : ItemRand
  regularItem : ItemRand
deriving DecidableEq, Repr

/-- `GameManager.spawn_item(force_special)` (lines 186-198): a forced
spawn is SPECIAL; otherwise GOOD when `random.random() < SPAWN_RATES[GOOD]`,
else BAD.  The new item is appended to the live list with the current
speed multiplier. -/
def spawn_item (s : GMState) (force_special : Bool) (typeRoll : ℚ) (r : ItemRand) : GMState :=
  let t := if force_special then ItemType.SPECIAL
           else if typeRoll < SPAWN_RATE_GOOD then ItemType.GOOD else ItemType.BAD
  { s with items := s.items ++ [mkItem t s.speed_multiplier r] }

/-- The score/combo/milestone effects of `GameManager.handle_catch`
(lines 200-283), everything except the final removal of the caught item
from the live list (split out so the in-loop processing can share it).
Sounds and popups are presentation-only and omitted; the
`celebration_burst` fired when the freshly created combo effect reports
`should_trigger_special()` is counted in `combo_celebrations`. -/
def catchEffects (s : GMState) (it : Item) : GMState :=
  let s1 := { s with score := s.score + it.score_value }
  if it.is_good || it.is_special then
    let s2 := { s1 with combo_timer := combo_max_time, combo_count := s1.combo_count + 1 }
    let s3 : GMState :=
      if 2 ≤ s2.combo_count then
        let eff := mkComboEffect s2.combo_count
        let s3a := { s2 with combo_effect := some eff }
        if eff.should_trigger_special then
          { s3a with combo_celebrations := s3a.combo_celebrations + 1 }
        else s3a
      else s2
    if s3.combo_count = 5 then { s3 with score := s3.score + 10 }
    else if s3.combo_count = 10 then { s3 with score := s3.score + 30 }
    else s3
  else if it.is_bad then
    { s1 with combo_count := 0, combo_timer := 0, combo_effect := none }
  else s1

/-- `GameManager.handle_catch(item, player)`: the effects above followed
by `if item in self.items: self.items.remove(item)`. -/
def handle_catch (s : GMState) (it : Item) : GMState :=
  let s1 := catchEffects s it
  { s1 with items := s1.items.erase it }

/-- Combo-timer decay at the top of `GameManager.update` (lines 123-128):
only runs while the timer is positive; expiry resets both count and
timer to zero. -/
def decayStep (s : GMState) (dt : ℚ) : GMState :=
  if 0 < s.combo_timer then
    let t := s.combo_timer - dt
    if t ≤ 0 then { s with combo_count := 0, combo_timer := 0 }
    else { s with combo_timer := t }
  else s

/-- Combo-effect animation aging (lines 131-133 together with
`ComboEffect.update`): the effect is dropped once its lifetime reaches
`max_lifetime = 1.2`. -/
def effectStep (s : GMState) (dt : ℚ) : GMState :=
  match s.combo_effect with
  | none => s
  | some e =>
      let e1 := { e with lifetime := e.lifetime + dt }
      if 1.2 ≤ e1.lifetime then { s with combo_effect := none }
      else { s with combo_effect := some e1 }

/-- Special-item fairness spawn check (lines 140-144). -/
def specialSpawnStep (s : GMState) (elapsed : ℚ) (r : TickRand) : GMState :=
  if s.next_special_spawn_time ≤ elapsed ∧ ¬ s.special_spawned_this_interval then
    let s1 := spawn_item s true r.typeRoll r.specialItem
    { s1 with special_spawned_this_interval := true
              special_items_spawned := s1.special_items_spawned + 1 }
  else s

/-- Regular spawn step (lines 146-150): increment the frame counter and
spawn exactly one item when it reaches the interval. -/
def regularSpawnStep (s : GMState) (frames : ℤ) (typeRoll : ℚ) (r : ItemRand) : GMState :=
  let s1 := { s with spawn_timer := s.spawn_timer + 1 }
  if frames ≤ s1.spawn_timer then
    spawn_item { s1 with spawn_timer := 0 } false typeRoll r
  else s1

/-- Miss branch of the item loop (lines 161-166). -/
def missReschedule (s : GMState) (elapsed : ℚ) : GMState :=
  { s with special_missed := true
           next_special_spawn_time := elapsed + 10
           special_spawned_this_interval := false }

/-- One iteration of the item loop (lines 152-170), threading the
manager state and accumulating the surviving live items: kinematics,
collision/catch, special-miss rescheduling, off-screen pruning.  A
caught item was already removed by `handle_catch`, so it never reaches
the survivor list. -/
def processItem (player : Rect) (dt elapsed : ℚ) (acc : GMState × List Item) (it : Item) :
    GMState × List Item :=
  let s := acc.1
  let survivors := acc.2
  let it1 := it.update dt
  let cond := !it1.caught && it1.get_rect.colliderect player
  let it2 := if cond then { it1 with caught := true } else it1
  let s1 := if cond then catchEffects s it2 else s
  let s2 := if it2.is_special && it2.is_off_screen && !it2.caught
            then missReschedule s1 elapsed else s1
  let survivors1 := if it2.is_off_screen || it2.caught then survivors
                    else survivors ++ [it2]
  (s2, survivors1)

/-- Interval rollover (lines 172-175): once the tick's elapsed time is
10 seconds past the scheduled spawn time of a special that was spawned
this interval, roll the schedule forward by the fresh `[20,30)` draw. -/
def rolloverStep (s : GMState) (elapsed specialDelay : ℚ) : GMState :=
  if s.special_spawned_this_interval ∧ s.next_special_spawn_time + 10 ≤ elapsed then
    { s with next_special_spawn_time := elapsed + specialDelay
             special_spawned_this_interval := false }
  else s

/-- The part of `GameManager.update` between the terminal check and the
item loop (lines 123-150): combo decay, combo-effect aging, difficulty
recomputation, special fairness spawn, regular spawn. -/
def preLoopState (s0 : GMState) (dt elapsed : ℚ) (r : TickRand) : GMState :=
  let s1 := decayStep s0 dt
  let s2 := effectStep s1 dt
  let params := get_difficulty_params elapsed
  let s3 := { s2 with speed_multiplier := params.1 }
  let frames := pyTrunc (params.2 * 30)
  let s4 := specialSpawnStep s3 elapsed r
  regularSpawnStep s4 frames r.typeRoll r.regularItem

/-- `GameManager.update(player)` (lines 108-184).  `current_time` is the
tick's `pygame.time.get_ticks()` reading (the code reads the clock more
than once inside a tick; within one simulation step the readings
coincide), `player` is the player's collision rect for the tick, and `r`
carries the tick's random draws.  Popups and confetti updates are
presentation-only and omitted. -/
def GameManager.update (s : GMState) (current_time : ℚ) (player : Rect) (r : TickRand) :
    GMState :=
  if s.game_over then s
  else
    let dt := (current_time - s.last_frame_time) / 1000
    let s0 := { s with last_frame_time := current_time }
    if s0.remaining_at current_time ≤ 0 then { s0 with game_over := true }
    else
      let elapsed := s0.elapsed_at current_time
      let s5 := preLoopState s0 dt elapsed r
      let folded := s5.items.foldl (processItem player dt elapsed) (s5, [])
      let s6 := { folded.1 with items := folded.2 }
      rolloverStep s6 elapsed r.specialDelay

/-! ### The combo state machine of the spec (section 4.5), as an abstract
machine on `(count, timer)` pairs, used to state that the embedded code
realises exactly it. -/

/-- Timer decay/expiry transition on a `(count, timer)` pair. -/
def comboDecay (c : ℤ × ℚ) (dt : ℚ) : ℤ × ℚ :=
  if 0 < c.2 then
    let t := c.2 - dt
    if t ≤ 0 then (0, 0) else (c.1, t)
  else c

/-- Catch transition on a `(count, timer)` pair: good/special catches
increment the count and refill the timer, bad catches reset both. -/
def comboCatch (c : ℤ × ℚ) (t : ItemType) : ℤ × ℚ :=
  if t = .GOOD ∨ t = .SPECIAL then (c.1 + 1, combo_max_time) else (0, 0)

/-- The kinds of the items that get caught during one pass of the item
loop, in processing order: an item is caught when it is not yet caught
and, after its kinematic step, its rect collides with the player's. -/
def caughtTypes (player : Rect) (dt : ℚ) (items : List Item) : List ItemType :=
  (items.filter
    (fun it => !(it.update dt).caught && (it.update dt).get_rect.colliderect player)).map
    Item.type

/-- The in-loop condition under which an item counts as a missed special
this tick: after its kinematic step it is special, off screen, was not
already caught, and does not collide with the player. -/
def missCond (player : Rect) (dt : ℚ) (it : Item) : Bool :=
  let it1 := it.update dt
  it1.is_special && it1.is_off_screen && !it1.caught && !(it1.get_rect.colliderect player)

/-- Combo-state invariant of claim C10 on a `(count, timer)` pair. -/
def PairInv (c : ℤ × ℚ) : Prop :=
  0 ≤ c.1 ∧ 0 ≤ c.2 ∧ c.2 ≤ combo_max_time ∧ (1 ≤ c.1 → 0 < c.2)

/-- Combo-state invariant of claim C10 on a manager state. -/
def ComboInv (s : GMState) : Prop :=
  PairInv (s.combo_count, s.combo_timer)

/-! ### Concrete fixtures for counterexamples and witnesses -/

/-- A fixed bundle of constructor draws, inside all the source ranges. -/
def cRand : ItemRand :=
  { baseFallSpeed := 4, initRotation := 0, angularVelocity := 10, rotationFriction := 0.99
    isBalloon := false, balloonRotation := 0, width := 80, height := 80, x := 100 }

/-- A fixed bundle of per-tick draws, inside all the source ranges. -/
def cTickRand : TickRand :=
  { specialDelay := 25, typeRoll := 0.5, specialItem := cRand, regularItem := cRand }

/-- A player rect spanning the bottom strip of the screen. -/
def cPlayer : Rect := { x := 0, y := 900, w := 1920, h := 100 }

/-- A live special item one kinematic step above the player strip. -/
def cSpecialItem : Item :=
  { type := .SPECIAL, speed := 5, score_value := 50, rotation := 0, angular_velocity := 10
    rotation_friction := 0.995, width := 80, height := 80, x := 100, y := 900, caught := false }

/-- A live good item one kinematic step above the player strip. -/
def cGoodItem : Item :=
  { type := .GOOD, speed := 5, score_value := 10, rotation := 0, angular_velocity := 10
    rotation_friction := 0.99, width := 80, height := 80, x := 100, y := 900, caught := false }

/-- C2 scenario: the pending special (scheduled at 25s, spawned this
interval) is still falling at elapsed 26s and will be caught this tick;
the 10-second rollover point (35s) has not been reached. -/
def c2State : GMState :=
  { score := 0, items := [cSpecialItem], start_time := 0, last_frame_time := 25900
    spawn_timer := 0, speed_multiplier := 1, game_over := false
    next_special_spawn_time := 25, special_spawned_this_interval := true
    special_missed := false, special_items_spawned := 1
    combo_count := 0, combo_timer := 0, combo_effect := none, combo_celebrations := 0 }

/-- C7 scenario: a 7-streak combo whose timer (0.05s) expires during a
0.1s tick in which a good item is also caught. -/
def c7State : GMState :=
  { score := 0, items := [cGoodItem], start_time := 0, last_frame_time := 0
    spawn_timer := 0, speed_multiplier := 1, game_over := false
    next_special_spawn_time := 25, special_spawned_this_interval := false
    special_missed := false, special_items_spawned := 0
    combo_count := 7, combo_timer := 0.05, combo_effect := none, combo_celebrations := 0 }

/-- C4 scenario: a manager state already at a 10-streak combo. -/
def c4State : GMState :=
  { score := 100, items := [], start_time := 0, last_frame_time := 0
    spawn_timer := 0, speed_multiplier := 1, game_over := false
    next_special_spawn_time := 25, special_spawned_this_interval := false
    special_missed := false, special_items_spawned := 0
    combo_count := 10, combo_timer := 2, combo_effect := none, combo_celebrations := 0 }

/-- C3 scenario: the pending special is falling just above the bottom
bound at elapsed 26s, does not touch the player, and crosses the bound
this tick. -/
def c3Item : Item :=
  { type := .SPECIAL, speed := 5, score_value := 50, rotation := 0, angular_velocity := 10
    rotation_friction := 0.995, width := 80, height := 80, x := 100, y := 1078, caught := false }

def c3State : GMState :=
  { score := 0, items := [c3Item], start_time := 0, last_frame_time := 25900
    spawn_timer := 0, speed_multiplier := 1, game_over := false
    next_special_spawn_time := 25, special_spawned_this_interval := true
    special_missed := false, special_items_spawned := 1
    combo_count := 0, combo_timer := 0, combo_effect := none, combo_celebrations := 0 }

/-- A neutral idle state used by several witnesses. -/
def cIdleState : GMState :=
  { score := 0, items := [], start_time := 0, last_frame_time := 0
    spawn_timer := 0, speed_multiplier := 1, game_over := false
    next_special_spawn_time := 25, special_spawned_this_interval := false
    special_missed := false, special_items_spawned := 0
    combo_count := 0, combo_timer := 0, combo_effect := none, combo_celebrations := 0 }

/-! ## Shared lemmas -/

/-- `catchEffects` only touches score, combo state and the visual-effect
slot: every other field is preserved. -/
theorem catchEffects_preserved (s : GMState) (it : Item) :
    (catchEffects s it).items = s.items ∧
    (catchEffects s it).start_time = s.start_time ∧
    (catchEffects s it).last_frame_time = s.last_frame_time ∧
    (catchEffects s it).spawn_timer = s.spawn_timer ∧
    (catchEffects s it).speed_multiplier = s.speed_multiplier ∧
    (catchEffects s it).game_over = s.game_over ∧
    (catchEffects s it).next_special_spawn_time = s.next_special_spawn_time ∧
    (catchEffects s it).special_spawned_this_interval = s.special_spawned_this_interval ∧
    (catchEffects s it).special_missed = s.special_missed ∧
    (catchEffects s it).special_items_spawned = s.special_items_spawned := by
  simp only [catchEffects]
  split_ifs <;> exact ⟨rfl, rfl, rfl, rfl, rfl, rfl, rfl, rfl, rfl, rfl⟩

/-- The combo fields of `catchEffects` are exactly a `comboCatch`
transition of the abstract machine. -/
theorem catchEffects_combo (s : GMState) (it : Item) :
    ((catchEffects s it).combo_count, (catchEffects s it).combo_timer)
      = comboCatch (s.combo_count, s.combo_timer) it.type := by
  cases h : it.type <;>
    simp only [catchEffects, comboCatch, Item.is_good, Item.is_special, Item.is_bad, h] <;>
    simp <;> split_ifs <;> simp

/-- The combo fields of `decayStep` are exactly a `comboDecay`
transition of the abstract machine. -/
theorem decayStep_combo (s : GMState) (dt : ℚ) :
    ((decayStep s dt).combo_count, (decayStep s dt).combo_timer)
      = comboDecay (s.combo_count, s.combo_timer) dt := by
  simp only [decayStep, comboDecay]
  split_ifs <;> rfl

/-- `decayStep` only touches the combo fields. -/
theorem decayStep_preserved (s : GMState) (dt : ℚ) :
    (decayStep s dt).items = s.items ∧
    (decayStep s dt).score = s.score ∧
    (decayStep s dt).start_time = s.start_time ∧
    (decayStep s dt).last_frame_time = s.last_frame_time ∧
    (decayStep s dt).spawn_timer = s.spawn_timer ∧
    (decayStep s dt).speed_multiplier = s.speed_multiplier ∧
    (decayStep s dt).game_over = s.game_over ∧
    (decayStep s dt).next_special_spawn_time = s.next_special_spawn_time ∧
    (decayStep s dt).special_spawned_this_interval = s.special_spawned_this_interval ∧
    (decayStep s dt).special_missed = s.special_missed ∧
    (decayStep s dt).special_items_spawned = s.special_items_spawned ∧
    (decayStep s dt).combo_effect = s.combo_effect ∧
    (decayStep s dt).combo_celebrations = s.combo_celebrations := by
  simp only [decayStep]
  split_ifs <;> exact ⟨rfl, rfl, rfl, rfl, rfl, rfl, rfl, rfl, rfl, rfl, rfl, rfl, rfl⟩

/-- `effectStep` only touches the visual-effect slot. -/
theorem effectStep_preserved (s : GMState) (dt : ℚ) :
    (effectStep s dt).items = s.items ∧
    (effectStep s dt).score = s.score ∧
    (effectStep s dt).start_time = s.start_time ∧
    (effectStep s dt).last_frame_time = s.last_frame_time ∧
    (effectStep s dt).spawn_timer = s.spawn_timer ∧
    (effectStep s dt).speed_multiplier = s.speed_multiplier ∧
    (effectStep s dt).game_over = s.game_over ∧
    (effectStep s dt).next_special_spawn_time = s.next_special_spawn_time ∧
    (effectStep s dt).special_spawned_this_interval = s.special_spawned_this_interval ∧
    (effectStep s dt).special_missed = s.special_missed ∧
    (effectStep s dt).special_items_spawned = s.special_items_spawned ∧
    (effectStep s dt).combo_count = s.combo_count ∧
    (effectStep s dt).combo_timer = s.combo_timer ∧
    (effectStep s dt).combo_celebrations = s.combo_celebrations := by
  cases h : s.combo_effect <;> simp only [effectStep, h] <;>
    first
      | exact ⟨rfl, rfl, rfl, rfl, rfl, rfl, rfl, rfl, rfl, rfl, rfl, rfl, rfl, rfl⟩
      | (split_ifs <;> exact ⟨rfl, rfl, rfl, rfl, rfl, rfl, rfl, rfl, rfl, rfl, rfl, rfl, rfl, rfl⟩)
      | simp

/-- `missReschedule` only touches the three schedule fields. -/
theorem missReschedule_preserved (s : GMState) (e : ℚ) :
    (missReschedule s e).items = s.items ∧
    (missReschedule s e).score = s.score ∧
    (missReschedule s e).game_over = s.game_over ∧
    (missReschedule s e).combo_count = s.combo_count ∧
    (missReschedule s e).combo_timer = s.combo_timer ∧
    (missReschedule s e).special_items_spawned = s.special_items_spawned ∧
    (missReschedule s e).combo_celebrations = s.combo_celebrations := by
  exact ⟨rfl, rfl, rfl, rfl, rfl, rfl, rfl⟩

/-- `rolloverStep` only touches the schedule fields. -/
theorem rolloverStep_preserved (s : GMState) (e d : ℚ) :
    (rolloverStep s e d).items = s.items ∧
    (rolloverStep s e d).score = s.score ∧
    (rolloverStep s e d).game_over = s.game_over ∧
    (rolloverStep s e d).combo_count = s.combo_count ∧
    (rolloverStep s e d).combo_timer = s.combo_timer ∧
    (rolloverStep s e d).special_missed = s.special_missed ∧
    (rolloverStep s e d).special_items_spawned = s.special_items_spawned ∧
    (rolloverStep s e d).combo_celebrations = s.combo_celebrations := by
  simp only [rolloverStep]
  split_ifs <;> exact ⟨rfl, rfl, rfl, rfl, rfl, rfl, rfl, rfl⟩

/-- `spawn_item` appends exactly one item and touches nothing else. -/
theorem spawn_item_preserved (s : GMState) (f : Bool) (roll : ℚ) (r : ItemRand) :
    (spawn_item s f roll r).items.length = s.items.length + 1 ∧
    (spawn_item s f roll r).score = s.score ∧
    (spawn_item s f roll r).game_over = s.game_over ∧
    (spawn_item s f roll r).spawn_timer = s.spawn_timer ∧
    (spawn_item s f roll r).combo_count = s.combo_count ∧
    (spawn_item s f roll r).combo_timer = s.combo_timer ∧
    (spawn_item s f roll r).next_special_spawn_time = s.next_special_spawn_time ∧
    (spawn_item s f roll r).special_spawned_this_interval = s.special_spawned_this_interval ∧
    (spawn_item s f roll r).special_missed = s.special_missed ∧
    (spawn_item s f roll r).special_items_spawned = s.special_items_spawned ∧
    (spawn_item s f roll r).combo_celebrations = s.combo_celebrations := by
  simp [spawn_item]

/-- A non-forced `spawn_item` never produces a SPECIAL item: the items
list is extended by a single GOOD or BAD item. -/
theorem spawn_item_not_special (s : GMState) (roll : ℚ) (r : ItemRand) :
    ∀ it ∈ (spawn_item s false roll r).items, it ∈ s.items ∨ it.type ≠ ItemType.SPECIAL := by
  intro it hit
  simp only [spawn_item, if_neg Bool.false_ne_true, List.mem_append, List.mem_singleton] at hit
  rcases hit with h | h
  · exact Or.inl h
  · subst h
    right
    simp only [mkItem]
    split_ifs <;> simp

/-- Kinematics do not change an item's kind. -/
theorem Item.update_type (it : Item) (dt : ℚ) : (it.update dt).type = it.type := rfl

/-- Kinematics do not change an item's caught flag. -/
theorem Item.update_caught (it : Item) (dt : ℚ) : (it.update dt).caught = it.caught := rfl

/-- One item-loop iteration never touches the terminal flag, clocks,
spawn counter, speed multiplier, special-spawn total, or the manager's
(pre-loop) item list. -/
theorem processItem_preserved (player : Rect) (dt e : ℚ) (s : GMState) (sv : List Item)
    (it : Item) :
    ((processItem player dt e (s, sv) it).1).game_over = s.game_over ∧
    ((processItem player dt e (s, sv) it).1).start_time = s.start_time ∧
    ((processItem player dt e (s, sv) it).1).last_frame_time = s.last_frame_time ∧
    ((processItem player dt e (s, sv) it).1).spawn_timer = s.spawn_timer ∧
    ((processItem player dt e (s, sv) it).1).speed_multiplier = s.speed_multiplier ∧
    ((processItem player dt e (s, sv) it).1).special_items_spawned = s.special_items_spawned ∧
    ((processItem player dt e (s, sv) it).1).items = s.items := by
  simp only [processItem]
  split_ifs <;> simp_all [catchEffects_preserved, missReschedule]

/-- The manager-state component of a whole item-loop pass never touches
the terminal flag, clocks, spawn counter, speed multiplier,
special-spawn total, or the (pre-loop) item list. -/
theorem foldl_processItem_preserved (player : Rect) (dt e : ℚ) :
    ∀ (items : List Item) (s : GMState) (sv : List Item),
    ((items.foldl (processItem player dt e) (s, sv)).1).game_over = s.game_over ∧
    ((items.foldl (processItem player dt e) (s, sv)).1).start_time = s.start_time ∧
    ((items.foldl (processItem player dt e) (s, sv)).1).last_frame_time = s.last_frame_time ∧
    ((items.foldl (processItem player dt e) (s, sv)).1).spawn_timer = s.spawn_timer ∧
    ((items.foldl (processItem player dt e) (s, sv)).1).speed_multiplier
      = s.speed_multiplier ∧
    ((items.foldl (processItem player dt e) (s, sv)).1).special_items_spawned
      = s.special_items_spawned ∧
    ((items.foldl (processItem player dt e) (s, sv)).1).items = s.items := by
  intro items
  induction items with
  | nil => intro s sv; exact ⟨rfl, rfl, rfl, rfl, rfl, rfl, rfl⟩
  | cons hd tl ih =>
      intro s sv
      rw [List.foldl_cons]
      have hpair : processItem player dt e (s, sv) hd
          = ((processItem player dt e (s, sv) hd).1, (processItem player dt e (s, sv) hd).2) :=
        rfl
      rw [hpair]
      have h1 := processItem_preserved player dt e s sv hd
      have h2 := ih (processItem player dt e (s, sv) hd).1 (processItem player dt e (s, sv) hd).2
      exact ⟨h2.1.trans h1.1, h2.2.1.trans h1.2.1, h2.2.2.1.trans h1.2.2.1,
        h2.2.2.2.1.trans h1.2.2.2.1, h2.2.2.2.2.1.trans h1.2.2.2.2.1,
        h2.2.2.2.2.2.1.trans h1.2.2.2.2.2.1, h2.2.2.2.2.2.2.trans h1.2.2.2.2.2.2⟩

/-- The combo fields after one item-loop iteration: a `comboCatch`
transition when the item is caught this tick, unchanged otherwise. -/
theorem processItem_combo (player : Rect) (dt e : ℚ) (s : GMState) (sv : List Item)
    (it : Item) :
    (((processItem player dt e (s, sv) it).1).combo_count,
     ((processItem player dt e (s, sv) it).1).combo_timer)
      = if !(it.update dt).caught && (it.update dt).get_rect.colliderect player
        then comboCatch (s.combo_count, s.combo_timer) it.type
        else (s.combo_count, s.combo_timer) := by
  simp only [processItem]
  split_ifs with h1 h2 h3 <;>
    simp_all [missReschedule, catchEffects_combo, catchEffects_preserved, Item.update_type]

/-- The combo fields after a whole item-loop pass are the abstract
machine's fold of `comboCatch` over the kinds caught this tick. -/
theorem foldl_processItem_combo (player : Rect) (dt e : ℚ) :
    ∀ (items : List Item) (s : GMState) (sv : List Item),
    (((items.foldl (processItem player dt e) (s, sv)).1).combo_count,
     ((items.foldl (processItem player dt e) (s, sv)).1).combo_timer)
      = List.foldl comboCatch (s.combo_count, s.combo_timer) (caughtTypes player dt items) := by
  intro items
  induction items with
  | nil => intro s sv; simp [caughtTypes]
  | cons hd tl ih =>
      intro s sv
      rw [List.foldl_cons]
      have hpair : processItem player dt e (s, sv) hd
          = ((processItem player dt e (s, sv) hd).1, (processItem player dt e (s, sv) hd).2) :=
        rfl
      rw [hpair]
      have h1 := processItem_combo player dt e s sv hd
      have h2 := ih (processItem player dt e (s, sv) hd).1 (processItem player dt e (s, sv) hd).2
      by_cases hc : (!(hd.update dt).caught && (hd.update dt).get_rect.colliderect player) = true
      · rw [if_pos hc] at h1
        have : caughtTypes player dt (hd :: tl) = hd.type :: caughtTypes player dt tl := by
          simp [caughtTypes, hc]
        rw [this, List.foldl_cons, h2, h1]
      · rw [if_neg hc] at h1
        have : caughtTypes player dt (hd :: tl) = caughtTypes player dt tl := by
          simp only [caughtTypes, List.filter_cons]
          rw [if_neg hc]
        rw [this, h2, h1]

/-- `specialSpawnStep` only appends an item, sets the interval flag and
bumps the special counter; in particular the scheduled time itself and
the missed flag are untouched. -/
theorem specialSpawnStep_preserved (s : GMState) (e : ℚ) (r : TickRand) :
    (specialSpawnStep s e r).score = s.score ∧
    (specialSpawnStep s e r).start_time = s.start_time ∧
    (specialSpawnStep s e r).last_frame_time = s.last_frame_time ∧
    (specialSpawnStep s e r).spawn_timer = s.spawn_timer ∧
    (specialSpawnStep s e r).speed_multiplier = s.speed_multiplier ∧
    (specialSpawnStep s e r).game_over = s.game_over ∧
    (specialSpawnStep s e r).next_special_spawn_time = s.next_special_spawn_time ∧
    (specialSpawnStep s e r).special_missed = s.special_missed ∧
    (specialSpawnStep s e r).combo_count = s.combo_count ∧
    (specialSpawnStep s e r).combo_timer = s.combo_timer ∧
    (specialSpawnStep s e r).combo_effect = s.combo_effect ∧
    (specialSpawnStep s e r).combo_celebrations = s.combo_celebrations := by
  simp only [specialSpawnStep, spawn_item]
  split_ifs <;> exact ⟨rfl, rfl, rfl, rfl, rfl, rfl, rfl, rfl, rfl, rfl, rfl, rfl⟩

/-- `regularSpawnStep` only touches the spawn counter and the item
list. -/
theorem regularSpawnStep_preserved (s : GMState) (frames : ℤ) (roll : ℚ) (r : ItemRand) :
    (regularSpawnStep s frames roll r).score = s.score ∧
    (regularSpawnStep s frames roll r).start_time = s.start_time ∧
    (regularSpawnStep s frames roll r).last_frame_time = s.last_frame_time ∧
    (regularSpawnStep s frames roll r).speed_multiplier = s.speed_multiplier ∧
    (regularSpawnStep s frames roll r).game_over = s.game_over ∧
    (regularSpawnStep s frames roll r).next_special_spawn_time = s.next_special_spawn_time ∧
    (regularSpawnStep s frames roll r).special_spawned_this_interval
      = s.special_spawned_this_interval ∧
    (regularSpawnStep s frames roll r).special_missed = s.special_missed ∧
    (regularSpawnStep s frames roll r).special_items_spawned = s.special_items_spawned ∧
    (regularSpawnStep s frames roll r).combo_count = s.combo_count ∧
    (regularSpawnStep s frames roll r).combo_timer = s.combo_timer ∧
    (regularSpawnStep s frames roll r).combo_effect = s.combo_effect ∧
    (regularSpawnStep s frames roll r).combo_celebrations = s.combo_celebrations := by
  simp only [regularSpawnStep, spawn_item]
  split_ifs <;>
    exact ⟨rfl, rfl, rfl, rfl, rfl, rfl, rfl, rfl, rfl, rfl, rfl, rfl, rfl⟩

/-- Fields preserved across the whole pre-loop phase of a tick. -/
theorem preLoopState_preserved (s : GMState) (dt e : ℚ) (r : TickRand) :
    (preLoopState s dt e r).score = s.score ∧
    (preLoopState s dt e r).start_time = s.start_time ∧
    (preLoopState s dt e r).last_frame_time = s.last_frame_time ∧
    (preLoopState s dt e r).game_over = s.game_over ∧
    (preLoopState s dt e r).next_special_spawn_time = s.next_special_spawn_time ∧
    (preLoopState s dt e r).special_missed = s.special_missed ∧
    (preLoopState s dt e r).combo_celebrations = s.combo_celebrations := by
  simp only [preLoopState]
  simp [regularSpawnStep_preserved, specialSpawnStep_preserved, effectStep_preserved,
    decayStep_preserved]

/-- The combo fields across the pre-loop phase are exactly one
`comboDecay` transition. -/
theorem preLoopState_combo (s : GMState) (dt e : ℚ) (r : TickRand) :
    ((preLoopState s dt e r).combo_count, (preLoopState s dt e r).combo_timer)
      = comboDecay (s.combo_count, s.combo_timer) dt := by
  simp only [preLoopState]
  simp [regularSpawnStep_preserved, specialSpawnStep_preserved, effectStep_preserved]
  exact decayStep_combo s dt

/-- The schedule state left behind by a miss at tick-elapsed time `e`:
missed flag raised, retry scheduled exactly 10 seconds out, interval
flag cleared. -/
def MissState (e : ℚ) (s : GMState) : Prop :=
  s.special_missed = true ∧ s.next_special_spawn_time = e + 10 ∧
  s.special_spawned_this_interval = false

/-- Once established, the miss-reschedule state survives any further
item-loop iteration of the same tick (a catch does not touch the
schedule, and a second miss rewrites the same values). -/
theorem processItem_missState (player : Rect) (dt e : ℚ) (s : GMState) (sv : List Item)
    (it : Item) (h : MissState e s) :
    MissState e (processItem player dt e (s, sv) it).1 := by
  obtain ⟨h1, h2, h3⟩ := h
  simp only [processItem, MissState]
  split_ifs <;>
    simp_all [missReschedule, catchEffects_preserved]

/-- An item satisfying the miss condition drives its loop iteration into
the miss-reschedule state. -/
theorem processItem_establishes_missState (player : Rect) (dt e : ℚ) (s : GMState)
    (sv : List Item) (it : Item) (h : missCond player dt it = true) :
    MissState e (processItem player dt e (s, sv) it).1 := by
  simp only [missCond, Bool.and_eq_true, Bool.not_eq_true'] at h
  obtain ⟨⟨⟨hsp, hoff⟩, hcaught⟩, hcol⟩ := h
  simp only [processItem]
  simp [hcaught, hcol, hsp, hoff, MissState, missReschedule]

/-- A whole item-loop pass containing at least one missed special ends
in the miss-reschedule state. -/
theorem foldl_processItem_missState (player : Rect) (dt e : ℚ) :
    ∀ (items : List Item) (s : GMState) (sv : List Item),
      ((∃ it ∈ items, missCond player dt it = true) ∨ MissState e s) →
      MissState e ((items.foldl (processItem player dt e) (s, sv)).1) := by
  intro items
  induction items with
  | nil =>
      intro s sv h
      rcases h with h | h
      · obtain ⟨it, hit, _⟩ := h
        exact absurd hit (List.not_mem_nil it)
      · exact h
  | cons hd tl ih =>
      intro s sv h
      rw [List.foldl_cons]
      have hpair : processItem player dt e (s, sv) hd
          = ((processItem player dt e (s, sv) hd).1, (processItem player dt e (s, sv) hd).2) :=
        rfl
      rw [hpair]
      rcases h with h | h
      · obtain ⟨it, hit, hmiss⟩ := h
        rcases List.mem_cons.mp hit with rfl | hmem
        · exact ih _ _ (Or.inr (processItem_establishes_missState player dt e s sv it hmiss))
        · exact ih _ _ (Or.inl ⟨it, hmem, hmiss⟩)
      · exact ih _ _ (Or.inr (processItem_missState player dt e s sv hd h))

/-- The miss-reschedule state survives the end-of-tick rollover check
(the rollover requires the interval flag, which a miss clears). -/
theorem rolloverStep_missState (s : GMState) (e d e' : ℚ) (h : MissState e' s) :
    MissState e' (rolloverStep s e d) := by
  obtain ⟨h1, h2, h3⟩ := h
  simp only [rolloverStep]
  rw [if_neg]
  · exact ⟨h1, h2, h3⟩
  · intro hc
    rw [h3] at hc
    exact Bool.false_ne_true hc.1

/-- An item-loop iteration over a non-special item leaves the special
schedule (spawn time, interval flag, missed flag) unchanged. -/
theorem processItem_sched_not_special (player : Rect) (dt e : ℚ) (s : GMState)
    (sv : List Item) (it : Item) (h : it.type ≠ ItemType.SPECIAL) :
    ((processItem player dt e (s, sv) it).1).next_special_spawn_time
        = s.next_special_spawn_time ∧
    ((processItem player dt e (s, sv) it).1).special_spawned_this_interval
        = s.special_spawned_this_interval ∧
    ((processItem player dt e (s, sv) it).1).special_missed = s.special_missed := by
  simp only [processItem]
  split_ifs with h1 h2 h3
  · exfalso
    simp [Item.is_special] at h2
  · exact ⟨(catchEffects_preserved s _).2.2.2.2.2.2.1,
      (catchEffects_preserved s _).2.2.2.2.2.2.2.1,
      (catchEffects_preserved s _).2.2.2.2.2.2.2.2.1⟩
  · exfalso
    simp only [Item.is_special, Bool.and_eq_true, decide_eq_true_eq, Item.update_type] at h3
    exact h h3.1.1
  · exact ⟨rfl, rfl, rfl⟩

/-- A whole item-loop pass over a list without special items leaves the
special schedule unchanged. -/
theorem foldl_processItem_sched (player : Rect) (dt e : ℚ) :
    ∀ (items : List Item) (s : GMState) (sv : List Item),
      (∀ it ∈ items, it.type ≠ ItemType.SPECIAL) →
      ((items.foldl (processItem player dt e) (s, sv)).1).next_special_spawn_time
          = s.next_special_spawn_time ∧
      ((items.foldl (processItem player dt e) (s, sv)).1).special_spawned_this_interval
          = s.special_spawned_this_interval ∧
      ((items.foldl (processItem player dt e) (s, sv)).1).special_missed
          = s.special_missed := by
  intro items
  induction items with
  | nil => intro s sv _; exact ⟨rfl, rfl, rfl⟩
  | cons hd tl ih =>
      intro s sv h
      rw [List.foldl_cons]
      have hpair : processItem player dt e (s, sv) hd
          = ((processItem player dt e (s, sv) hd).1, (processItem player dt e (s, sv) hd).2) :=
        rfl
      rw [hpair]
      have h1 := processItem_sched_not_special player dt e s sv hd
        (h hd (List.mem_cons_self hd tl))
      have h2 := ih (processItem player dt e (s, sv) hd).1 (processItem player dt e (s, sv) hd).2
        (fun it hit => h it (List.mem_cons_of_mem hd hit))
      exact ⟨h2.1.trans h1.1, h2.2.1.trans h1.2.1, h2.2.2.trans h1.2.2⟩

/-- The combo invariant survives a `comboDecay` transition for a
non-negative time step. -/
theorem comboDecay_inv (c : ℤ × ℚ) (dt : ℚ) (hdt : 0 ≤ dt) (h : PairInv c) :
    PairInv (comboDecay c dt) := by
  obtain ⟨h1, h2, h3, h4⟩ := h
  simp only [comboDecay, PairInv]
  split_ifs with hpos hexp
  · exact ⟨le_refl 0, le_refl 0, by norm_num [combo_max_time], by omega⟩
  · dsimp only
    refine ⟨h1, by linarith [not_le.mp hexp], by linarith, fun _ => by linarith [not_le.mp hexp]⟩
  · exact ⟨h1, h2, h3, h4⟩

/-- The combo invariant survives a `comboCatch` transition. -/
theorem comboCatch_inv (c : ℤ × ℚ) (t : ItemType) (h : PairInv c) :
    PairInv (comboCatch c t) := by
  obtain ⟨h1, h2, h3, h4⟩ := h
  simp only [comboCatch, PairInv]
  split_ifs
  · exact ⟨by omega, by norm_num [combo_max_time], le_refl _, fun _ => by norm_num [combo_max_time]⟩
  · exact ⟨le_refl 0, le_refl 0, by norm_num [combo_max_time], by omega⟩

/-- The combo invariant survives any sequence of `comboCatch`
transitions. -/
theorem foldl_comboCatch_inv :
    ∀ (ts : List ItemType) (c : ℤ × ℚ), PairInv c → PairInv (List.foldl comboCatch c ts) := by
  intro ts
  induction ts with
  | nil => intro c h; exact h
  | cons hd tl ih => intro c h; exact ih (comboCatch c hd) (comboCatch_inv c hd h)

/-- The Python float modulo with a positive divisor is non-negative. -/
theorem pymod_nonneg (x m : ℚ) (hm : 0 < m) : 0 ≤ pymod x m := by
  have h := Int.floor_le (x / m)
  have h2 : m * ((⌊x / m⌋ : ℤ) : ℚ) ≤ m * (x / m) := by
    exact mul_le_mul_of_nonneg_left h (le_of_lt hm)
  rw [mul_div_cancel₀ x (ne_of_gt hm)] at h2
  simp only [pymod]
  linarith

/-- The Python float modulo with a positive divisor is below the
divisor. -/
theorem pymod_lt (x m : ℚ) (hm : 0 < m) : pymod x m < m := by
  have h := Int.lt_floor_add_one (x / m)
  have h2 : m * (x / m) < m * ((⌊x / m⌋ : ℤ) + 1 : ℚ) := by
    exact mul_lt_mul_of_pos_left h hm
  rw [mul_div_cancel₀ x (ne_of_gt hm)] at h2
  simp only [pymod]
  nlinarith

/-- For an interpolation factor in `[0, 1]` between increasing
endpoints, `lerp` stays between them. -/
theorem lerp_between_le (a b f : ℚ) (h0 : 0 ≤ f) (h1 : f ≤ 1) (hab : a ≤ b) :
    a ≤ lerp a b f ∧ lerp a b f ≤ b := by
  simp only [lerp]
  constructor <;> nlinarith

/-- For an interpolation factor in `[0, 1]` between decreasing
endpoints, `lerp` stays between them. -/
theorem lerp_between_ge (a b f : ℚ) (h0 : 0 ≤ f) (h1 : f ≤ 1) (hab : b ≤ a) :
    b ≤ lerp a b f ∧ lerp a b f ≤ a := by
  simp only [lerp]
  constructor <;> nlinarith


theorem findStages_bracket0 (t : ℚ) (h0 : 0 ≤ t) (h1 : t < 10) :
    findStages t = (stage0, stage1) := by
  simp only [findStages]
  rw [if_pos ⟨h0, h1⟩]

theorem findStages_bracket1 (t : ℚ) (h0 : 10 ≤ t) (h1 : t < 30) :
    findStages t = (stage1, stage2) := by
  simp only [findStages]
  rw [if_neg (show ¬ (0 ≤ t ∧ t < 10) by push_neg; intro; linarith), if_pos ⟨h0, h1⟩]

theorem findStages_bracket2 (t : ℚ) (h0 : 30 ≤ t) :
    findStages t = (stage2, stage3) := by
  simp only [findStages]
  rw [if_neg (show ¬ (0 ≤ t ∧ t < 10) by push_neg; intro; linarith),
    if_neg (show ¬ (10 ≤ t ∧ t < 30) by push_neg; intro; linarith), if_pos h0]

theorem gdp_bracket0 (t : ℚ) (h0 : 0 ≤ t) (h1 : t < 10) :
    get_difficulty_params t
      = (lerp 1.3 1.5 (min 1 (t / 10)), lerp 2.0 1.7 (min 1 (t / 10))) := by
  simp only [get_difficulty_params, findStages_bracket0 t h0 h1]
  rw [if_neg (show ¬ (stage0 = stage1) by simp [stage0, stage1])]
  norm_num [stage0, stage1]

theorem gdp_bracket1 (t : ℚ) (h0 : 10 ≤ t) (h1 : t < 30) :
    get_difficulty_params t
      = (lerp 1.5 1.8 (min 1 ((t - 10) / 20)), lerp 1.7 1.4 (min 1 ((t - 10) / 20))) := by
  simp only [get_difficulty_params, findStages_bracket1 t h0 h1]
  rw [if_neg (show ¬ (stage1 = stage2) by simp [stage1, stage2])]
  norm_num [stage1, stage2]

theorem gdp_bracket2 (t : ℚ) (h0 : 30 ≤ t) :
    get_difficulty_params t
      = (lerp 1.8 2.1 (min 1 ((t - 30) / 15)), lerp 1.4 1.1 (min 1 ((t - 30) / 15))) := by
  simp only [get_difficulty_params, findStages_bracket2 t h0]
  rw [if_neg (show ¬ (stage2 = stage3) by simp [stage2, stage3])]
  norm_num [stage2, stage3]

/-- C1 -/
theorem c1_difficulty_curve_continuity (t : ℚ) (ht : 0 ≤ t) :
    get_difficulty_params 10 = (1.5, 1.7) ∧
    get_difficulty_params 30 = (1.8, 1.4) ∧
    get_difficulty_params 45 = (2.1, 1.1) ∧
    (45 ≤ t → get_difficulty_params t = (2.1, 1.1)) ∧
    (0 < t → t < 10 →
      1.3 ≤ (get_difficulty_params t).1 ∧ (get_difficulty_params t).1 ≤ 1.5 ∧
      1.7 ≤ (get_difficulty_params t).2 ∧ (get_difficulty_params t).2 ≤ 2.0) ∧
    (10 < t → t < 30 →
      1.5 ≤ (get_difficulty_params t).1 ∧ (get_difficulty_params t).1 ≤ 1.8 ∧
      1.4 ≤ (get_difficulty_params t).2 ∧ (get_difficulty_params t).2 ≤ 1.7) ∧
    (30 < t → t < 45 →
      1.8 ≤ (get_difficulty_params t).1 ∧ (get_difficulty_params t).1 ≤ 2.1 ∧
      1.1 ≤ (get_difficulty_params t).2 ∧ (get_difficulty_params t).2 ≤ 1.4) := by
  refine ⟨?_, ?_, ?_, ?_, ?_, ?_, ?_⟩
  · rw [gdp_bracket1 10 (by norm_num) (by norm_num)]
    norm_num [lerp]
  · rw [gdp_bracket2 30 (by norm_num)]
    norm_num [lerp]
  · rw [gdp_bracket2 45 (by norm_num)]
    norm_num [lerp]
  · intro h45
    rw [gdp_bracket2 t (by linarith)]
    have hmin : min 1 ((t - 30) / 15) = 1 := by
      apply min_eq_left
      rw [le_div_iff₀ (by norm_num : (0:ℚ) < 15)]
      linarith
    rw [hmin]
    norm_num [lerp]
  · intro hlo hhi
    rw [gdp_bracket0 t (le_of_lt hlo) hhi]
    have h0f : (0:ℚ) ≤ min 1 (t / 10) :=
      le_min (by norm_num) (div_nonneg (le_of_lt hlo) (by norm_num))
    have h1f : min 1 (t / 10) ≤ 1 := min_le_left _ _
    have hA := lerp_between_le 1.3 1.5 (min 1 (t / 10)) h0f h1f (by norm_num)
    have hB := lerp_between_ge 2.0 1.7 (min 1 (t / 10)) h0f h1f (by norm_num)
    exact ⟨hA.1, hA.2, hB.1, hB.2⟩
  · intro hlo hhi
    rw [gdp_bracket1 t (le_of_lt hlo) hhi]
    have h0f : (0:ℚ) ≤ min 1 ((t - 10) / 20) :=
      le_min (by norm_num) (div_nonneg (by linarith) (by norm_num))
    have h1f : min 1 ((t - 10) / 20) ≤ 1 := min_le_left _ _
    have hA := lerp_between_le 1.5 1.8 (min 1 ((t - 10) / 20)) h0f h1f (by norm_num)
    have hB := lerp_between_ge 1.7 1.4 (min 1 ((t - 10) / 20)) h0f h1f (by norm_num)
    exact ⟨hA.1, hA.2, hB.1, hB.2⟩
  · intro hlo hhi
    rw [gdp_bracket2 t (le_of_lt hlo)]
    have h0f : (0:ℚ) ≤ min 1 ((t - 30) / 15) :=
      le_min (by norm_num) (div_nonneg (by linarith) (by norm_num))
    have h1f : min 1 ((t - 30) / 15) ≤ 1 := min_le_left _ _
    have hA := lerp_between_le 1.8 2.1 (min 1 ((t - 30) / 15)) h0f h1f (by norm_num)
    have hB := lerp_between_ge 1.4 1.1 (min 1 ((t - 30) / 15)) h0f h1f (by norm_num)
    exact ⟨hA.1, hA.2, hB.1, hB.2⟩

/-- C1 witness -/
theorem c1_difficulty_curve_continuity_witness :
    (0:ℚ) ≤ 50 ∧ get_difficulty_params 50 = (2.1, 1.1) :=
  ⟨by norm_num, (c1_difficulty_curve_continuity 50 (by norm_num)).2.2.2.1 (by norm_num)⟩


/-- C8: the per-tick kinematic step adds `speed` to `y` without scaling
by `dt`, advances rotation by `angular_velocity * dt` and normalizes it
into `[0, 360)`, damps the angular velocity by the friction coefficient,
which is strictly below 1 for every item kind whose constructor draws
lie in the source ranges, and classifies an item off screen exactly when
`y` exceeds the screen height. -/
theorem c8_item_kinematics (it : Item) (dt : ℚ) (t : ItemType) (smul : ℚ) (r : ItemRand)
    (hr : ItemRandValid t r) :
    (it.update dt).y = it.y + it.speed ∧
    (it.update dt).rotation = pymod (it.rotation + it.angular_velocity * dt) 360 ∧
    0 ≤ (it.update dt).rotation ∧ (it.update dt).rotation < 360 ∧
    (it.update dt).angular_velocity = it.angular_velocity * it.rotation_friction ∧
    (mkItem t smul r).rotation_friction < 1 ∧
    (it.is_off_screen = true ↔ SCREEN_HEIGHT < it.y) := by
  refine ⟨rfl, rfl, pymod_nonneg _ _ (by norm_num), pymod_lt _ _ (by norm_num), rfl, ?_, ?_⟩
  · cases t with
    | GOOD =>
        have h := (hr.2.2.1 rfl).2
        simp only [mkItem]
        rw [if_neg (fun hh => ItemType.noConfusion hh)]
        linarith
    | BAD =>
        have h := (hr.2.2.2 rfl).2
        simp only [mkItem]
        rw [if_neg (fun hh => ItemType.noConfusion hh)]
        linarith
    | SPECIAL =>
        simp only [mkItem]
        norm_num
  · simp [Item.is_off_screen]

/-- C8 witness: a concrete good item and concrete in-range constructor
draws. -/
theorem c8_item_kinematics_witness :
    ItemRandValid ItemType.GOOD cRand ∧
    (cGoodItem.update 0.1).y = cGoodItem.y + cGoodItem.speed ∧
    (mkItem ItemType.GOOD 1 cRand).rotation_friction < 1 ∧
    0 ≤ (cGoodItem.update 0.1).rotation := by
  have hr : ItemRandValid ItemType.GOOD cRand := by
    refine ⟨by norm_num [cRand], by norm_num [cRand], fun _ => ⟨?_, ?_⟩, fun h => by cases h⟩ <;>
      norm_num [cRand]
  have h := c8_item_kinematics cGoodItem 0.1 ItemType.GOOD 1 cRand hr
  exact ⟨hr, h.1, h.2.2.2.2.2.1, h.2.2.1⟩

/-- C9: the regular spawn step appends at most one item per tick, and a
degenerate (non-positive) frame interval makes it spawn exactly one item
and terminate; a non-positive interval in seconds always converts to a
non-positive frame count.  `0 ≤ spawn_timer` holds for every reachable
state (the counter starts at 0 and is only incremented or reset to 0). -/
theorem c9_degenerate_spawn_interval (s : GMState) (frames : ℤ) (typeRoll : ℚ) (r : ItemRand)
    (hst : 0 ≤ s.spawn_timer) :
    (regularSpawnStep s frames typeRoll r).items.length ≤ s.items.length + 1 ∧
    (frames ≤ 0 → (regularSpawnStep s frames typeRoll r).items.length = s.items.length + 1) ∧
    (∀ interval : ℚ, interval ≤ 0 → pyTrunc (interval * 30) ≤ 0) := by
  refine ⟨?_, ?_, ?_⟩
  · simp only [regularSpawnStep, spawn_item]
    split_ifs <;> simp
  · intro hf
    simp only [regularSpawnStep, spawn_item]
    rw [if_pos (by omega : frames ≤ s.spawn_timer + 1)]
    simp
  · intro interval hi
    have hq : interval * 30 ≤ 0 := by nlinarith
    simp only [pyTrunc]
    split_ifs with h
    · calc ⌊interval * 30⌋ ≤ ⌊(0:ℚ)⌋ := Int.floor_le_floor hq
        _ = 0 := Int.floor_zero
    · calc ⌈interval * 30⌉ ≤ ⌈(0:ℚ)⌉ := Int.ceil_le_ceil hq
        _ = 0 := Int.ceil_zero

/-- C9 witness: the idle state with a degenerate zero-frame interval. -/
theorem c9_degenerate_spawn_interval_witness :
    0 ≤ cIdleState.spawn_timer ∧
    (regularSpawnStep cIdleState 0 0.5 cRand).items.length
      = cIdleState.items.length + 1 := by
  have h := c9_degenerate_spawn_interval cIdleState 0 0.5 cRand (by norm_num [cIdleState])
  exact ⟨by norm_num [cIdleState], h.2.1 (le_refl 0)⟩


theorem specialSpawnStep_flag_true (s : GMState) (e : ℚ) (r : TickRand)
    (h : s.special_spawned_this_interval = true) : specialSpawnStep s e r = s := by
  simp [specialSpawnStep, h]

theorem specialSpawnStep_fires (s : GMState) (e : ℚ) (r : TickRand)
    (hflag : s.special_spawned_this_interval = false)
    (hdue : s.next_special_spawn_time ≤ e) :
    (specialSpawnStep s e r).special_items_spawned = s.special_items_spawned + 1 ∧
    (specialSpawnStep s e r).special_spawned_this_interval = true := by
  simp only [specialSpawnStep, spawn_item]
  rw [if_pos ⟨hdue, by simp [hflag]⟩]
  exact ⟨rfl, rfl⟩

theorem regularSpawnStep_not_special (s : GMState) (frames : ℤ) (roll : ℚ) (r : ItemRand) :
    ∀ it ∈ (regularSpawnStep s frames roll r).items, it ∈ s.items ∨ it.type ≠ ItemType.SPECIAL := by
  simp only [regularSpawnStep]
  split_ifs with h
  · exact spawn_item_not_special _ roll r
  · intro it hit
    exact Or.inl hit

/-- While the interval flag is raised and no live item is special, the
pre-loop phase adds no special item and keeps the flag raised, and the
scheduled special time is untouched. -/
theorem preLoopState_no_special (s : GMState) (dt e : ℚ) (r : TickRand)
    (hflag : s.special_spawned_this_interval = true)
    (hns : ∀ it ∈ s.items, it.type ≠ ItemType.SPECIAL) :
    (∀ it ∈ (preLoopState s dt e r).items, it.type ≠ ItemType.SPECIAL) ∧
    (preLoopState s dt e r).special_spawned_this_interval = true := by
  simp only [preLoopState]
  obtain ⟨e1, e2, e3, e4, e5, e6, e7, e8, e9, e10, e11, e12, e13, e14⟩ :=
    effectStep_preserved (decayStep s dt) dt
  obtain ⟨d1, d2, d3, d4, d5, d6, d7, d8, d9, d10, d11, d12, d13⟩ := decayStep_preserved s dt
  have hflag3 : ({ effectStep (decayStep s dt) dt with
      speed_multiplier := (get_difficulty_params e).1 } : GMState).special_spawned_this_interval
      = true := by
    show (effectStep (decayStep s dt) dt).special_spawned_this_interval = true
    rw [e9, d9]
    exact hflag
  rw [specialSpawnStep_flag_true _ _ _ hflag3]
  have hitems3 : ({ effectStep (decayStep s dt) dt with
      speed_multiplier := (get_difficulty_params e).1 } : GMState).items = s.items := by
    show (effectStep (decayStep s dt) dt).items = s.items
    rw [e1, d1]
  constructor
  · intro it hit
    rcases regularSpawnStep_not_special _ _ _ _ it hit with hmem | hty
    · rw [hitems3] at hmem
      exact hns it hmem
    · exact hty
  · rw [(regularSpawnStep_preserved _ _ _ _).2.2.2.2.2.2.1]
    exact hflag3

/-- In a non-terminal tick, the combo fields after `update` are exactly
the abstract combo machine: one decay transition followed by one catch
transition per item caught this tick, in loop order. -/
theorem update_combo_spec (s : GMState) (ct : ℚ) (player : Rect) (r : TickRand)
    (hgo : s.game_over = false) (hrem : ¬ GMState.remaining_at s ct ≤ 0) :
    ((GameManager.update s ct player r).combo_count,
     (GameManager.update s ct player r).combo_timer)
      = List.foldl comboCatch
          (comboDecay (s.combo_count, s.combo_timer) ((ct - s.last_frame_time) / 1000))
          (caughtTypes player ((ct - s.last_frame_time) / 1000)
            (preLoopState { s with last_frame_time := ct } ((ct - s.last_frame_time) / 1000)
              (GMState.elapsed_at { s with last_frame_time := ct } ct) r).items) := by
  simp only [GameManager.update]
  rw [if_neg (show ¬ s.game_over = true by rw [hgo]; exact Bool.false_ne_true)]
  rw [if_neg (show ¬ GMState.remaining_at { s with last_frame_time := ct } ct ≤ 0 from hrem)]
  rw [(rolloverStep_preserved _ _ _).2.2.2.1, (rolloverStep_preserved _ _ _).2.2.2.2.1]
  dsimp only
  rw [foldl_processItem_combo player _ _ _ _ _]
  rw [preLoopState_combo]

/-- C4 counterexample: with the combo already at 10, the next good catch
(count 11, still >= 10) fires the special visual trigger again — a fresh
combo effect is created on every catch and its trigger is live at
creation — contradicting "consumed once, not re-triggered while the
count stays >= 10". -/
theorem c4_counterexample :
    c4State.combo_count = 10 ∧
    (handle_catch c4State cGoodItem).combo_count = 11 ∧
    (handle_catch c4State cGoodItem).combo_celebrations
      = c4State.combo_celebrations + 1 := by
  norm_num [handle_catch, catchEffects, c4State, cGoodItem, mkComboEffect,
    ComboEffectState.should_trigger_special, combo_max_time, Item.is_good, Item.is_special,
    Item.is_bad, SCORES]

/-- C4 amended: milestone bonuses are edge-triggered (+10 exactly when
the count becomes 5, +30 exactly when it becomes 10, nothing otherwise),
but the special visual trigger fires on every good/special catch that
leaves the count at 10 or more, not just once per crossing of 10. -/
theorem c4_milestones_amended (s : GMState) (it : Item)
    (hg : it.is_good = true ∨ it.is_special = true) :
    (s.combo_count + 1 = 5 → (handle_catch s it).score = s.score + it.score_value + 10) ∧
    (s.combo_count + 1 = 10 → (handle_catch s it).score = s.score + it.score_value + 30) ∧
    (s.combo_count + 1 ≠ 5 → s.combo_count + 1 ≠ 10 →
       (handle_catch s it).score = s.score + it.score_value) ∧
    (10 ≤ s.combo_count + 1 →
       (handle_catch s it).combo_celebrations = s.combo_celebrations + 1) ∧
    (s.combo_count + 1 < 10 →
       (handle_catch s it).combo_celebrations = s.combo_celebrations) := by
  have hgs : (it.is_good || it.is_special) = true := by
    rcases hg with h | h <;> simp [h]
  simp only [handle_catch, catchEffects, hgs, mkComboEffect,
    ComboEffectState.should_trigger_special, if_true]
  norm_num
  refine ⟨?_, ?_, ?_, ?_, ?_⟩ <;> intros <;> split_ifs <;>
    first
      | rfl
      | (dsimp only at *; omega)


/-- C4 witness: a good catch at a 10-streak (count becomes 11, still at
least 10) re-fires the special visual. -/
theorem c4_milestones_amended_witness :
    (cGoodItem.is_good = true ∨ cGoodItem.is_special = true) ∧
    10 ≤ c4State.combo_count + 1 ∧
    (handle_catch c4State cGoodItem).combo_celebrations
      = c4State.combo_celebrations + 1 := by
  have hg : cGoodItem.is_good = true ∨ cGoodItem.is_special = true :=
    Or.inl (by norm_num [cGoodItem, Item.is_good])
  have h := c4_milestones_amended c4State cGoodItem hg
  exact ⟨hg, by norm_num [c4State], h.2.2.2.1 (by norm_num [c4State])⟩

/-- C5: the combo subsystem realises exactly the spec's state machine —
each good/special catch increments the count by 1 and refills the timer
to the full 4-second window, a bad catch resets both to zero, a tick
whose decay drives the timer to zero (with no catch) resets the count,
and the count changes in no other way: over a whole non-terminal tick
the combo fields equal the abstract machine's decay followed by one
catch transition per caught item. -/
theorem c5_combo_state_machine (s : GMState) (ct : ℚ) (player : Rect) (r : TickRand)
    (hgo : s.game_over = false) (hrem : ¬ GMState.remaining_at s ct ≤ 0) :
    (∀ (s2 : GMState) (it : Item),
      ((handle_catch s2 it).combo_count, (handle_catch s2 it).combo_timer)
        = comboCatch (s2.combo_count, s2.combo_timer) it.type) ∧
    ((GameManager.update s ct player r).combo_count,
     (GameManager.update s ct player r).combo_timer)
      = List.foldl comboCatch
          (comboDecay (s.combo_count, s.combo_timer) ((ct - s.last_frame_time) / 1000))
          (caughtTypes player ((ct - s.last_frame_time) / 1000)
            (preLoopState { s with last_frame_time := ct } ((ct - s.last_frame_time) / 1000)
              (GMState.elapsed_at { s with last_frame_time := ct } ct) r).items) := by
  constructor
  · intro s2 it
    have h := catchEffects_combo s2 it
    simpa [handle_catch] using h
  · exact update_combo_spec s ct player r hgo hrem

/-- C5 witness: the concrete expiry-plus-catch tick of `c7State`
evaluates, through the machine, to combo `(1, 4)`. -/
theorem c5_combo_state_machine_witness :
    c7State.game_over = false ∧ ¬ GMState.remaining_at c7State 100 ≤ 0 ∧
    ((GameManager.update c7State 100 cPlayer cTickRand).combo_count,
     (GameManager.update c7State 100 cPlayer cTickRand).combo_timer) = (1, 4) := by
  have hrem : ¬ GMState.remaining_at c7State 100 ≤ 0 := by
    norm_num [GMState.remaining_at, GMState.elapsed_at, c7State, GAME_DURATION]
  have h := (c5_combo_state_machine c7State 100 cPlayer cTickRand rfl hrem).2
  refine ⟨rfl, hrem, ?_⟩
  rw [h]
  norm_num [caughtTypes, preLoopState, decayStep, effectStep, specialSpawnStep,
    regularSpawnStep, spawn_item, mkItem, get_difficulty_params, findStages, stage0, stage1,
    stage2, stage3, lerp, pyTrunc, c7State, cGoodItem, cPlayer, cTickRand, cRand,
    GMState.elapsed_at, Item.update, Item.get_rect, Rect.colliderect, Item.is_special,
    Item.is_good, Item.is_bad, comboDecay, comboCatch, combo_max_time, List.filter,
    Prod.mk.injEq, SCORES, SCALE_FACTOR, pymod]

/-- C7 counterexample: with a 7-streak combo whose timer (0.05s) expires
during a 0.1s tick that also catches a good item, the tick ends with
combo count 1, not 8 — the expiry did reset the count before the catch
was processed, so the count was treated as expired. -/
theorem c7_counterexample :
    c7State.combo_count = 7 ∧ (0 : ℚ) < c7State.combo_timer ∧
    c7State.combo_timer ≤ (100 - c7State.last_frame_time) / 1000 ∧
    (GameManager.update c7State 100 cPlayer cTickRand).score = c7State.score + 10 ∧
    (GameManager.update c7State 100 cPlayer cTickRand).combo_count = 1 ∧
    (GameManager.update c7State 100 cPlayer cTickRand).combo_timer = 4 := by
  norm_num [GameManager.update, GMState.elapsed_at, GMState.remaining_at, decayStep,
    effectStep, specialSpawnStep, regularSpawnStep, spawn_item, mkItem, processItem,
    preLoopState, Item.update, Item.get_rect, Item.is_off_screen, Item.is_special,
    Item.is_good, Item.is_bad, Rect.colliderect, catchEffects, missReschedule, rolloverStep,
    get_difficulty_params, findStages, stage0, stage1, stage2, stage3, lerp, pyTrunc,
    pymod, mkComboEffect, ComboEffectState.should_trigger_special, combo_max_time,
    SCORES, SCREEN_HEIGHT, GAME_DURATION, SCALE_FACTOR, Prod.mk.injEq, List.foldl,
    c7State, cGoodItem, cPlayer, cTickRand, cRand]

/-- C7 amended: combo-timer decay is evaluated before the tick's catches,
and a good catch in the very tick the timer expires is still processed
as a catch — the timer is refilled to the full window — but the count
has already been reset by the expiry, so the catch restarts the combo at
1 rather than continuing the streak. -/
theorem c7_decay_before_catch_amended (s : GMState) (ct : ℚ) (player : Rect) (r : TickRand)
    (hgo : s.game_over = false) (hrem : ¬ GMState.remaining_at s ct ≤ 0)
    (hpos : 0 < s.combo_timer)
    (hexp : s.combo_timer ≤ (ct - s.last_frame_time) / 1000)
    (hcaught : caughtTypes player ((ct - s.last_frame_time) / 1000)
        (preLoopState { s with last_frame_time := ct } ((ct - s.last_frame_time) / 1000)
          (GMState.elapsed_at { s with last_frame_time := ct } ct) r).items
        = [ItemType.GOOD]) :
    (GameManager.update s ct player r).combo_count = 1 ∧
    (GameManager.update s ct player r).combo_timer = combo_max_time := by
  have h := update_combo_spec s ct player r hgo hrem
  rw [hcaught] at h
  have hd : comboDecay (s.combo_count, s.combo_timer) ((ct - s.last_frame_time) / 1000)
      = (0, 0) := by
    simp only [comboDecay]
    rw [if_pos hpos,
      if_pos (show (s.combo_count, s.combo_timer).2 - (ct - s.last_frame_time) / 1000 ≤ 0 by
        dsimp only
        linarith)]
  rw [hd] at h
  simp only [List.foldl_cons, List.foldl_nil, comboCatch, if_pos (Or.inl rfl)] at h
  rw [Prod.ext_iff] at h
  exact ⟨by simpa using h.1, by simpa using h.2⟩

/-- C7 witness: the concrete expiry-plus-catch tick. -/
theorem c7_decay_before_catch_amended_witness :
    c7State.game_over = false ∧ ¬ GMState.remaining_at c7State 100 ≤ 0 ∧
    (0 : ℚ) < c7State.combo_timer ∧
    c7State.combo_timer ≤ (100 - c7State.last_frame_time) / 1000 ∧
    (GameManager.update c7State 100 cPlayer cTickRand).combo_count = 1 := by
  have hrem : ¬ GMState.remaining_at c7State 100 ≤ 0 := by
    norm_num [GMState.remaining_at, GMState.elapsed_at, c7State, GAME_DURATION]
  have hcaught : caughtTypes cPlayer ((100 - c7State.last_frame_time) / 1000)
      (preLoopState { c7State with last_frame_time := 100 }
        ((100 - c7State.last_frame_time) / 1000)
        (GMState.elapsed_at { c7State with last_frame_time := 100 } 100) cTickRand).items
      = [ItemType.GOOD] := by
    norm_num [caughtTypes, preLoopState, decayStep, effectStep, specialSpawnStep,
      regularSpawnStep, spawn_item, mkItem, get_difficulty_params, findStages, stage0,
      stage1, stage2, stage3, lerp, pyTrunc, c7State, cGoodItem, cPlayer, cTickRand, cRand,
      GMState.elapsed_at, Item.update, Item.get_rect, Rect.colliderect, List.filter,
      SCORES, SCALE_FACTOR]
  have h := c7_decay_before_catch_amended c7State 100 cPlayer cTickRand rfl hrem
    (by norm_num [c7State]) (by norm_num [c7State]) hcaught
  exact ⟨rfl, hrem, by norm_num [c7State], by norm_num [c7State], h.1⟩

/-- C10: at every tick boundary and after every catch, the combo count
is non-negative, the combo timer lies in `[0, 4]`, and a positive count
never coexists with an expired timer. -/
theorem c10_combo_invariant (s : GMState) (ct : ℚ) (player : Rect) (r : TickRand) (it : Item)
    (hinv : ComboInv s) (hdt : s.last_frame_time ≤ ct) :
    ComboInv (GameManager.update s ct player r) ∧ ComboInv (handle_catch s it) := by
  constructor
  · by_cases hgo : s.game_over = true
    · simp only [GameManager.update, if_pos hgo]
      exact hinv
    · have hgo' : s.game_over = false := by
        cases h : s.game_over
        · rfl
        · exact absurd h hgo
      by_cases hrem : GMState.remaining_at s ct ≤ 0
      · simp only [GameManager.update]
        rw [if_neg hgo,
          if_pos (show GMState.remaining_at { s with last_frame_time := ct } ct ≤ 0 from hrem)]
        exact hinv
      · have h := update_combo_spec s ct player r hgo' hrem
        simp only [ComboInv]
        rw [h]
        exact foldl_comboCatch_inv _ _
          (comboDecay_inv _ _ (div_nonneg (by linarith) (by norm_num)) hinv)
  · have h := catchEffects_combo s it
    simp only [ComboInv, handle_catch]
    rw [h]
    exact comboCatch_inv _ _ hinv

/-- C10 witness: the invariant holds for the concrete 7-streak state and
is preserved through its expiry-plus-catch tick and through a direct
catch. -/
theorem c10_combo_invariant_witness :
    ComboInv c7State ∧ c7State.last_frame_time ≤ 100 ∧
    ComboInv (GameManager.update c7State 100 cPlayer cTickRand) ∧
    ComboInv (handle_catch c7State cGoodItem) := by
  have hinv : ComboInv c7State := by
    refine ⟨by norm_num [c7State], by norm_num [c7State], ?_, fun _ => by norm_num [c7State]⟩
    norm_num [c7State, combo_max_time]
  have h := c10_combo_invariant c7State 100 cPlayer cTickRand cGoodItem hinv
    (by norm_num [c7State])
  exact ⟨hinv, by norm_num [c7State], h.1, h.2⟩


/-- C2 counterexample: at elapsed 26s the pending special (scheduled at
25s, interval flag raised) is caught — the score gains its 50 points and
the item is removed — yet the schedule is NOT rolled forward on that
tick: the scheduled time stays 25 and the interval flag stays raised
(the rollover only happens once elapsed reaches 25 + 10 = 35). -/
theorem c2_counterexample :
    (GameManager.update c2State 26000 cPlayer cTickRand).score = c2State.score + 50 ∧
    (GameManager.update c2State 26000 cPlayer cTickRand).items = [] ∧
    (GameManager.update c2State 26000 cPlayer cTickRand).next_special_spawn_time = 25 ∧
    (GameManager.update c2State 26000 cPlayer cTickRand).special_spawned_this_interval
      = true := by
  norm_num [GameManager.update, GMState.elapsed_at, GMState.remaining_at, decayStep,
    effectStep, specialSpawnStep, regularSpawnStep, spawn_item, mkItem, processItem,
    preLoopState, Item.update, Item.get_rect, Item.is_off_screen, Item.is_special,
    Item.is_good, Item.is_bad, Rect.colliderect, catchEffects, missReschedule, rolloverStep,
    get_difficulty_params, findStages, stage0, stage1, stage2, stage3, lerp, pyTrunc,
    pymod, mkComboEffect, ComboEffectState.should_trigger_special, combo_max_time,
    SCORES, SCREEN_HEIGHT, GAME_DURATION, SCALE_FACTOR, Prod.mk.injEq, List.foldl,
    c2State, cSpecialItem, cPlayer, cTickRand, cRand]

/-- C2 amended: catching the pending special does not itself reschedule —
`handle_catch` leaves the whole special schedule untouched; the schedule
is rolled forward (to elapsed plus a fresh `[20,30)` draw, clearing the
interval flag) only by the end-of-tick rollover once the tick's elapsed
time is at least 10 seconds past the scheduled spawn time while the
interval flag is still raised. -/
theorem c2_special_schedule_amended (s : GMState) (it : Item) (ct : ℚ) (player : Rect)
    (r : TickRand)
    (hgo : s.game_over = false) (hrem : ¬ GMState.remaining_at s ct ≤ 0)
    (hflag : s.special_spawned_this_interval = true)
    (hdue : s.next_special_spawn_time + 10 ≤ GMState.elapsed_at s ct)
    (hns : ∀ it2 ∈ s.items, it2.type ≠ ItemType.SPECIAL)
    (hd20 : 20 ≤ r.specialDelay) (hd30 : r.specialDelay < 30) :
    ((handle_catch s it).next_special_spawn_time = s.next_special_spawn_time ∧
     (handle_catch s it).special_spawned_this_interval = s.special_spawned_this_interval ∧
     (handle_catch s it).special_missed = s.special_missed) ∧
    ((GameManager.update s ct player r).next_special_spawn_time
        = GMState.elapsed_at s ct + r.specialDelay ∧
     GMState.elapsed_at s ct + 20 ≤ (GameManager.update s ct player r).next_special_spawn_time ∧
     (GameManager.update s ct player r).next_special_spawn_time
        < GMState.elapsed_at s ct + 30 ∧
     (GameManager.update s ct player r).special_spawned_this_interval = false) := by
  have hcatch : (handle_catch s it).next_special_spawn_time = s.next_special_spawn_time ∧
      (handle_catch s it).special_spawned_this_interval = s.special_spawned_this_interval ∧
      (handle_catch s it).special_missed = s.special_missed := by
    have h := catchEffects_preserved s it
    exact ⟨by simpa [handle_catch] using h.2.2.2.2.2.2.1,
           by simpa [handle_catch] using h.2.2.2.2.2.2.2.1,
           by simpa [handle_catch] using h.2.2.2.2.2.2.2.2.1⟩
  have key : (GameManager.update s ct player r).next_special_spawn_time
        = GMState.elapsed_at s ct + r.specialDelay ∧
      (GameManager.update s ct player r).special_spawned_this_interval = false := by
    simp only [GameManager.update]
    rw [if_neg (show ¬ s.game_over = true by rw [hgo]; exact Bool.false_ne_true)]
    rw [if_neg (show ¬ GMState.remaining_at { s with last_frame_time := ct } ct ≤ 0 from hrem)]
    have hpre := preLoopState_no_special { s with last_frame_time := ct }
      ((ct - s.last_frame_time) / 1000)
      (GMState.elapsed_at { s with last_frame_time := ct } ct) r hflag hns
    have hnext5 := (preLoopState_preserved { s with last_frame_time := ct }
      ((ct - s.last_frame_time) / 1000)
      (GMState.elapsed_at { s with last_frame_time := ct } ct) r).2.2.2.2.1
    have hfold := foldl_processItem_sched player ((ct - s.last_frame_time) / 1000)
      (GMState.elapsed_at { s with last_frame_time := ct } ct)
      (preLoopState { s with last_frame_time := ct } ((ct - s.last_frame_time) / 1000)
        (GMState.elapsed_at { s with last_frame_time := ct } ct) r).items
      (preLoopState { s with last_frame_time := ct } ((ct - s.last_frame_time) / 1000)
        (GMState.elapsed_at { s with last_frame_time := ct } ct) r) [] hpre.1
    simp only [rolloverStep]
    split_ifs with hc
    · constructor
      · rfl
      · rfl
    · exfalso
      apply hc
      constructor
      · show _ = true
        rw [hfold.2.1, hpre.2]
      · rw [hfold.1, hnext5]
        exact hdue
  exact ⟨hcatch, key.1, by rw [key.1]; linarith, by rw [key.1]; linarith, key.2⟩

/-- C2 witness: a concrete rollover tick (elapsed 36s, special scheduled
at 25s, flag raised, no live items) reschedules to `36 + 25 = 61` and
clears the flag; and `handle_catch` on the concrete special item leaves
the schedule untouched. -/
theorem c2_special_schedule_amended_witness :
    ({ c2State with items := [] } : GMState).special_spawned_this_interval = true ∧
    ({ c2State with items := [] } : GMState).next_special_spawn_time + 10
      ≤ GMState.elapsed_at { c2State with items := [] } 36000 ∧
    (handle_catch { c2State with items := [] } cSpecialItem).next_special_spawn_time
      = ({ c2State with items := [] } : GMState).next_special_spawn_time ∧
    (GameManager.update { c2State with items := [] } 36000 cPlayer
        cTickRand).next_special_spawn_time
      = GMState.elapsed_at { c2State with items := [] } 36000 + 25 ∧
    (GameManager.update { c2State with items := [] } 36000 cPlayer
        cTickRand).special_spawned_this_interval = false := by
  have h := c2_special_schedule_amended { c2State with items := [] } cSpecialItem 36000 cPlayer
    cTickRand rfl
    (by norm_num [GMState.remaining_at, GMState.elapsed_at, c2State, GAME_DURATION])
    rfl
    (by norm_num [GMState.elapsed_at, c2State])
    (by intro it2 hit2; simp at hit2)
    (by norm_num [cTickRand]) (by norm_num [cTickRand])
  refine ⟨rfl, by norm_num [GMState.elapsed_at, c2State], h.1.1, ?_, h.2.2.2.2⟩
  have := h.2.1
  simpa [cTickRand] using this


/-- When the interval flag is clear and the scheduled time has been
reached, the pre-loop phase performs the special spawn attempt, bumping
the special counter. -/
theorem preLoopState_fires (s : GMState) (dt e : ℚ) (r : TickRand)
    (hflag : s.special_spawned_this_interval = false)
    (hdue : s.next_special_spawn_time ≤ e) :
    (preLoopState s dt e r).special_items_spawned = s.special_items_spawned + 1 := by
  simp only [preLoopState, specialSpawnStep, regularSpawnStep, spawn_item]
  split_ifs <;> simp_all [decayStep_preserved, effectStep_preserved]

/-- Items live before the tick are still in the pre-loop item list (the
pre-loop phase only appends). -/
theorem preLoopState_items_mem (s : GMState) (dt e : ℚ) (r : TickRand) (it : Item)
    (h : it ∈ s.items) : it ∈ (preLoopState s dt e r).items := by
  simp only [preLoopState, specialSpawnStep, regularSpawnStep, spawn_item]
  split_ifs <;>
    simp [List.mem_append, decayStep_preserved, effectStep_preserved, h]

/-- C3: a tick in which some live special item crosses the bottom bound
uncaught ends with `missed = true`, the next special spawn time set to
exactly the tick's elapsed time plus 10 seconds, and the interval flag
cleared; and any later non-terminal tick whose elapsed time has reached
the scheduled time (flag clear) performs a special spawn attempt. -/
theorem c3_special_miss_retry (s : GMState) (ct : ℚ) (player : Rect) (r : TickRand)
    (hgo : s.game_over = false) (hrem : ¬ GMState.remaining_at s ct ≤ 0)
    (hmiss : ∃ it ∈ s.items, missCond player ((ct - s.last_frame_time) / 1000) it = true) :
    ((GameManager.update s ct player r).special_missed = true ∧
     (GameManager.update s ct player r).next_special_spawn_time
        = GMState.elapsed_at s ct + 10 ∧
     (GameManager.update s ct player r).special_spawned_this_interval = false) ∧
    (∀ (s2 : GMState) (ct2 : ℚ) (player2 : Rect) (r2 : TickRand),
      s2.game_over = false → ¬ GMState.remaining_at s2 ct2 ≤ 0 →
      s2.special_spawned_this_interval = false →
      s2.next_special_spawn_time ≤ GMState.elapsed_at s2 ct2 →
      (GameManager.update s2 ct2 player2 r2).special_items_spawned
        = s2.special_items_spawned + 1) := by
  constructor
  · obtain ⟨it, hit, hmc⟩ := hmiss
    have hup : MissState (GMState.elapsed_at { s with last_frame_time := ct } ct)
        (GameManager.update s ct player r) := by
      simp only [GameManager.update]
      rw [if_neg (show ¬ s.game_over = true by rw [hgo]; exact Bool.false_ne_true)]
      rw [if_neg (show ¬ GMState.remaining_at { s with last_frame_time := ct } ct ≤ 0 from
        hrem)]
      apply rolloverStep_missState
      have hbase := foldl_processItem_missState player ((ct - s.last_frame_time) / 1000)
        (GMState.elapsed_at { s with last_frame_time := ct } ct)
        (preLoopState { s with last_frame_time := ct } ((ct - s.last_frame_time) / 1000)
          (GMState.elapsed_at { s with last_frame_time := ct } ct) r).items
        (preLoopState { s with last_frame_time := ct } ((ct - s.last_frame_time) / 1000)
          (GMState.elapsed_at { s with last_frame_time := ct } ct) r) []
        (Or.inl ⟨it, preLoopState_items_mem _ _ _ _ it hit, hmc⟩)
      exact hbase
    exact ⟨hup.1, hup.2.1, hup.2.2⟩
  · intro s2 ct2 player2 r2 hgo2 hrem2 hflag2 hdue2
    simp only [GameManager.update]
    rw [if_neg (show ¬ s2.game_over = true by rw [hgo2]; exact Bool.false_ne_true)]
    rw [if_neg (show ¬ GMState.remaining_at { s2 with last_frame_time := ct2 } ct2 ≤ 0 from
      hrem2)]
    rw [(rolloverStep_preserved _ _ _).2.2.2.2.2.2.1]
    dsimp only
    rw [(foldl_processItem_preserved player2 _ _ _ _ _).2.2.2.2.2.1]
    exact preLoopState_fires { s2 with last_frame_time := ct2 }
      ((ct2 - s2.last_frame_time) / 1000)
      (GMState.elapsed_at { s2 with last_frame_time := ct2 } ct2) r2 hflag2 hdue2

/-- C3 witness: the concrete missed-special tick (the special at `y =
1078` moves to `1083 > 1080` without touching the player) reschedules to
`26 + 10 = 36` with the flag cleared; the generic retry clause is
instantiated at the idle state one tick past its scheduled time. -/
theorem c3_special_miss_retry_witness :
    (∃ it ∈ c3State.items,
      missCond cPlayer ((26000 - c3State.last_frame_time) / 1000) it = true) ∧
    (GameManager.update c3State 26000 cPlayer cTickRand).special_missed = true ∧
    (GameManager.update c3State 26000 cPlayer cTickRand).next_special_spawn_time
      = GMState.elapsed_at c3State 26000 + 10 ∧
    (GameManager.update c3State 26000 cPlayer cTickRand).special_spawned_this_interval
      = false ∧
    (GameManager.update cIdleState 26000 cPlayer cTickRand).special_items_spawned
      = cIdleState.special_items_spawned + 1 := by
  have hmiss : ∃ it ∈ c3State.items,
      missCond cPlayer ((26000 - c3State.last_frame_time) / 1000) it = true := by
    refine ⟨c3Item, by simp [c3State], ?_⟩
    norm_num [missCond, c3Item, Item.update, Item.is_special, Item.is_off_screen,
      Item.get_rect, Rect.colliderect, cPlayer, c3State, SCREEN_HEIGHT, pyTrunc, pymod]
  have h := c3_special_miss_retry c3State 26000 cPlayer cTickRand rfl
    (by norm_num [GMState.remaining_at, GMState.elapsed_at, c3State, GAME_DURATION]) hmiss
  refine ⟨hmiss, h.1.1, h.1.2.1, h.1.2.2, ?_⟩
  exact h.2 cIdleState 26000 cPlayer cTickRand rfl
    (by norm_num [GMState.remaining_at, GMState.elapsed_at, cIdleState, GAME_DURATION])
    rfl
    (by norm_num [GMState.elapsed_at, cIdleState])


/-- C6: the terminal flag flips exactly once — an update on a terminal
state is the identity (no spawning, kinematics or collision processing,
score and all session state untouched), a non-terminal update turns the
flag on exactly when the remaining time has reached 0, and the flipping
tick changes nothing but the flag and the frame clock. -/
theorem c6_terminal_flag (s : GMState) (ct : ℚ) (player : Rect) (r : TickRand) :
    (s.game_over = true → GameManager.update s ct player r = s) ∧
    (s.game_over = false →
      (((GameManager.update s ct player r).game_over = true)
          ↔ GMState.remaining_at s ct ≤ 0) ∧
      (GMState.remaining_at s ct ≤ 0 →
        GameManager.update s ct player r
          = { s with game_over := true, last_frame_time := ct })) := by
  constructor
  · intro h
    simp [GameManager.update, h]
  · intro hgo
    have hterm : GMState.remaining_at s ct ≤ 0 →
        GameManager.update s ct player r
          = { s with game_over := true, last_frame_time := ct } := by
      intro hrem
      simp only [GameManager.update]
      rw [if_neg (show ¬ s.game_over = true by rw [hgo]; exact Bool.false_ne_true)]
      rw [if_pos (show GMState.remaining_at { s with last_frame_time := ct } ct ≤ 0 from hrem)]
    refine ⟨⟨?_, ?_⟩, hterm⟩
    · intro hover
      by_contra hrem
      have hstay : (GameManager.update s ct player r).game_over = false := by
        simp only [GameManager.update]
        rw [if_neg (show ¬ s.game_over = true by rw [hgo]; exact Bool.false_ne_true)]
        rw [if_neg (show ¬ GMState.remaining_at { s with last_frame_time := ct } ct ≤ 0 from
          hrem)]
        rw [(rolloverStep_preserved _ _ _).2.2.1]
        dsimp only
        rw [(foldl_processItem_preserved player _ _ _ _ _).1]
        rw [(preLoopState_preserved _ _ _ _).2.2.2.1]
        exact hgo
      rw [hstay] at hover
      exact Bool.false_ne_true hover
    · intro hrem
      rw [hterm hrem]

/-- C6 witness: at 70 seconds the idle round is over -- the update flips
only the flag (and the frame clock); a second update is the identity. -/
theorem c6_terminal_flag_witness :
    cIdleState.game_over = false ∧ GMState.remaining_at cIdleState 70000 ≤ 0 ∧
    GameManager.update cIdleState 70000 cPlayer cTickRand
      = { cIdleState with game_over := true, last_frame_time := 70000 } ∧
    GameManager.update { cIdleState with game_over := true, last_frame_time := 70000 }
        71000 cPlayer cTickRand
      = { cIdleState with game_over := true, last_frame_time := 70000 } := by
  have hrem : GMState.remaining_at cIdleState 70000 ≤ 0 := by
    norm_num [GMState.remaining_at, GMState.elapsed_at, cIdleState, GAME_DURATION]
  have h := (c6_terminal_flag cIdleState 70000 cPlayer cTickRand).2 rfl
  have h2 := (c6_terminal_flag { cIdleState with game_over := true, last_frame_time := 70000 }
    71000 cPlayer cTickRand).1 rfl
  exact ⟨rfl, hrem, h.2 hrem, h2⟩

end CakeCatcher
